import Mathlib

/-!
# Verification of the Report Triage & Assignment Engine

A shallow embedding of the decision logic of the civic-issue reporting
backend: the priority scorer, the upvote ledger, the status-update
operation, jurisdiction resolution and report creation, together with
proofs of the specified properties.

Numbers that are IEEE doubles in the source are modelled as rationals
(ℚ); every value the scorer manipulates is a multiple of 1/10, where
double arithmetic is exact enough that rounding agrees with the
rational model.  Document ids and enum-like strings are kept as `String`
exactly as in the source.
-/

namespace JanConnect

/-! ## PriorityScorer — `reportSchema.methods.calculatePriority`
(src/src/models/report.model.js, lines 258–314) -/

/-- The base urgency score table (`urgencyScores` object in the source);
`none` models an absent key. -/
def urgencyScores (u : String) : Option ℚ :=
  if u = "low" then some (15/10)
  else if u = "medium" then some (25/10)
  else if u = "high" then some 4
  else if u = "critical" then some 5
  else none

/-- One entry of the `upvoteBoosts` table; `max = none` models `Infinity`. -/
structure UpvoteTier where
  min : ℕ
  max : Option ℕ
  boost : ℚ

/-- The `upvoteBoosts` table, in the object's insertion order
(tier1 … tier5), which is the order `Object.values` iterates. -/
def upvoteBoosts : List UpvoteTier :=
  [⟨1, some 4, 2/10⟩, ⟨5, some 9, 5/10⟩, ⟨10, some 19, 1⟩,
   ⟨20, some 49, 15/10⟩, ⟨50, none, 2⟩]

/-- The loop guard `upvotes >= tier.min && upvotes <= tier.max`
(`x <= Infinity` is always true). -/
def tierMatches (n : ℕ) (t : UpvoteTier) : Bool :=
  decide (t.min ≤ n) &&
    (match t.max with
     | some m => decide (n ≤ m)
     | none => true)

/-- The `for … of Object.values(upvoteBoosts)` loop with `break` on the
first matching tier; `communityBoost` stays 0 when no tier matches. -/
def communityBoost (n : ℕ) : ℚ :=
  match upvoteBoosts.find? (tierMatches n) with
  | some t => t.boost
  | none => 0

/-- `reportAge < 1 ? 0.2 : (reportAge < 7 ? 0.1 : 0)`. -/
def timeBoost (reportAge : ℚ) : ℚ :=
  if reportAge < 1 then 2/10 else if reportAge < 7 then 1/10 else 0

/-- JavaScript `Math.round` on the (non-negative, multiple-of-1/10)
values this code produces: round half up. -/
def jsRound (x : ℚ) : ℤ := ⌊x + 1/2⌋

/-- `this.priorityBreakdown` as written by `calculatePriority`. -/
structure PriorityBreakdown where
  urgencyScore : ℚ
  communityScore : ℚ
  finalScore : ℚ
deriving DecidableEq

/-- `urgencyScores[this.urgency] || 2.5` — the table values are all
non-falsy, so the `||` default fires exactly on a missing key. -/
def urgencyScoreOf (u : String) : ℚ :=
  (urgencyScores u).getD (25/10)

/-- `urgencyScore + communityBoost + timeBoost`. -/
def rawScore (u : String) (n : ℕ) (age : ℚ) : ℚ :=
  urgencyScoreOf u + communityBoost n + timeBoost age

/-- The first cap: `if (finalPriority > 5) finalPriority = 5;`. -/
def capAtFive (x : ℚ) : ℚ := if x > 5 then 5 else x

/-- Both sequential caps:
`if (finalPriority > 5) finalPriority = 5; if (finalPriority < 1) finalPriority = 1;`. -/
def clampScore (x : ℚ) : ℚ :=
  if capAtFive x < 1 then 1 else capAtFive x

/-- `calculatePriority`: returns the value of `Math.round(finalPriority)`
paired with the breakdown stored on the document
(`finalScore = Math.round(finalPriority * 10) / 10`).
`age` is `(Date.now() - reportDate) / (1000*60*60*24)` in days. -/
def calculatePriority (u : String) (n : ℕ) (age : ℚ) : ℤ × PriorityBreakdown :=
  let finalPriority := clampScore (rawScore u n age)
  (jsRound finalPriority,
   ⟨urgencyScoreOf u, communityBoost n, (jsRound (finalPriority * 10) : ℚ) / 10⟩)

/-! ### Reference definition of the scorer, modelled from the spec's words
(§4.3 PriorityScorer), for the refinement claim C1. -/

/-- Spec: base urgency score low=1.5, medium=2.5, high=4.0, critical=5.0,
unknown/missing defaults to 2.5. -/
def specUrgencyScore (u : String) : ℚ :=
  if u = "low" then 15/10
  else if u = "medium" then 25/10
  else if u = "high" then 4
  else if u = "critical" then 5
  else 25/10

/-- Spec: community boost tiers checked low→high, first match wins:
[1–4]→+0.2, [5–9]→+0.5, [10–19]→+1.0, [20–49]→+1.5, [50–∞)→+2.0, 0→+0. -/
def specCommunityBoost (n : ℕ) : ℚ :=
  if 1 ≤ n ∧ n ≤ 4 then 2/10
  else if 5 ≤ n ∧ n ≤ 9 then 5/10
  else if 10 ≤ n ∧ n ≤ 19 then 1
  else if 20 ≤ n ∧ n ≤ 49 then 15/10
  else if 50 ≤ n then 2
  else 0

/-- Spec: recency boost +0.2 if age < 1 day, +0.1 if 1 ≤ age < 7, else +0. -/
def specRecencyBoost (age : ℚ) : ℚ :=
  if age < 1 then 2/10
  else if 1 ≤ age ∧ age < 7 then 1/10
  else 0

/-- Spec: the raw sum clamped to [1.0, 5.0]. -/
def specClamp (x : ℚ) : ℚ := max 1 (min 5 x)

/-- Spec reference scorer: priority = clamped sum rounded half-up to the
nearest integer, finalScore = clamped sum rounded to one decimal. -/
def specScore (u : String) (n : ℕ) (age : ℚ) : ℤ × PriorityBreakdown :=
  let us := specUrgencyScore u
  let cb := specCommunityBoost n
  let rb := specRecencyBoost age
  let clamped := specClamp (us + cb + rb)
  (jsRound clamped, ⟨us, cb, (jsRound (clamped * 10) : ℚ) / 10⟩)

/-! ### Scorer lemmas -/

theorem urgencyScoreOf_eq_spec (u : String) :
    urgencyScoreOf u = specUrgencyScore u := by
  unfold urgencyScoreOf urgencyScores specUrgencyScore
  split_ifs <;> rfl

/-- Closed form of the tier loop. -/
theorem communityBoost_eval (n : ℕ) :
    communityBoost n =
      if n < 1 then 0
      else if n ≤ 4 then 2/10
      else if n ≤ 9 then 5/10
      else if n ≤ 19 then 1
      else if n ≤ 49 then 15/10
      else 2 := by
  unfold communityBoost upvoteBoosts tierMatches
  rcases Nat.lt_or_ge n 1 with h1 | h1
  · have h0 : n = 0 := by omega
    subst h0; rfl
  · rcases Nat.lt_or_ge n 5 with h2 | h2
    · simp [List.find?, h1, (show n ≤ 4 by omega), (show ¬ n < 1 by omega)]
    · rcases Nat.lt_or_ge n 10 with h3 | h3
      · simp [List.find?, (show ¬ n ≤ 4 by omega), h2,
          (show n ≤ 9 by omega), (show ¬ n < 1 by omega)]
      · rcases Nat.lt_or_ge n 20 with h4 | h4
        · simp [List.find?, (show ¬ n ≤ 4 by omega), (show ¬ n ≤ 9 by omega),
            h3, (show n ≤ 19 by omega), (show ¬ n < 1 by omega)]
        · rcases Nat.lt_or_ge n 50 with h5 | h5
          · simp [List.find?, (show ¬ n ≤ 4 by omega), (show ¬ n ≤ 9 by omega),
              (show ¬ n ≤ 19 by omega), h4, (show n ≤ 49 by omega),
              (show ¬ n < 1 by omega)]
          · simp [List.find?, (show ¬ n ≤ 4 by omega), (show ¬ n ≤ 9 by omega),
              (show ¬ n ≤ 19 by omega), (show ¬ n ≤ 49 by omega), h5,
              (show ¬ n < 1 by omega)]

theorem communityBoost_eq_spec (n : ℕ) :
    communityBoost n = specCommunityBoost n := by
  rw [communityBoost_eval]
  unfold specCommunityBoost
  split_ifs <;> first | rfl | omega

theorem timeBoost_eq_spec (age : ℚ) :
    timeBoost age = specRecencyBoost age := by
  unfold timeBoost specRecencyBoost
  rcases lt_or_ge age 1 with h | h
  · simp [h]
  · rcases lt_or_ge age 7 with h7 | h7
    · simp [not_lt.2 h, h7, h]
    · simp [not_lt.2 h, not_lt.2 h7, h]

theorem clampScore_eq_spec (x : ℚ) : clampScore x = specClamp x := by
  unfold clampScore capAtFive specClamp
  split_ifs <;> simp only [max_def, min_def] <;> split_ifs <;> linarith

theorem clampScore_bounds (x : ℚ) : 1 ≤ clampScore x ∧ clampScore x ≤ 5 := by
  unfold clampScore capAtFive
  split_ifs <;> constructor <;> linarith

theorem clampScore_mono {x y : ℚ} (h : x ≤ y) : clampScore x ≤ clampScore y := by
  unfold clampScore capAtFive
  split_ifs <;> linarith

theorem jsRound_mono {x y : ℚ} (h : x ≤ y) : jsRound x ≤ jsRound y :=
  Int.floor_le_floor (by linarith)

theorem communityBoost_mono {n m : ℕ} (h : n ≤ m) :
    communityBoost n ≤ communityBoost m := by
  rw [communityBoost_eval, communityBoost_eval]
  split_ifs <;> first | (exfalso; omega) | norm_num

theorem communityBoost_nonneg (n : ℕ) : 0 ≤ communityBoost n := by
  rw [communityBoost_eval]
  split_ifs <;> norm_num

theorem timeBoost_nonneg (age : ℚ) : 0 ≤ timeBoost age := by
  unfold timeBoost
  split_ifs <;> norm_num

theorem urgencyScoreOf_ge (u : String) : 15/10 ≤ urgencyScoreOf u := by
  unfold urgencyScoreOf urgencyScores
  split_ifs <;> norm_num

/-- Claim C1: for every urgency value, upvote count and report age, the
implemented priority computation coincides with the spec's reference
definition (base urgency table with 2.5 default, tiered community boost,
recency boost, clamp to [1,5], one-decimal finalScore, half-up integer
priority). -/
theorem calculatePriority_eq_spec (u : String) (n : ℕ) (age : ℚ) :
    calculatePriority u n age = specScore u n age := by
  simp only [calculatePriority, specScore, rawScore,
    urgencyScoreOf_eq_spec, communityBoost_eq_spec, timeBoost_eq_spec,
    clampScore_eq_spec]

/-- Claim C3: for all urgency, upvote-count and age inputs, the returned
priority is an integer in {1,2,3,4,5} and the breakdown's finalScore lies
in [1.0, 5.0]. -/
theorem calculatePriority_range (u : String) (n : ℕ) (age : ℚ) :
    (calculatePriority u n age).1 ∈ ({1, 2, 3, 4, 5} : Finset ℤ) ∧
      1 ≤ (calculatePriority u n age).2.finalScore ∧
      (calculatePriority u n age).2.finalScore ≤ 5 := by
  obtain ⟨hlo, hhi⟩ := clampScore_bounds (rawScore u n age)
  refine ⟨?_, ?_, ?_⟩
  · show jsRound (clampScore (rawScore u n age)) ∈ ({1, 2, 3, 4, 5} : Finset ℤ)
    have h1 : 1 ≤ jsRound (clampScore (rawScore u n age)) :=
      Int.le_floor.2 (by push_cast; linarith)
    have h5 : jsRound (clampScore (rawScore u n age)) < 6 :=
      Int.floor_lt.2 (by push_cast; linarith)
    simp only [Finset.mem_insert, Finset.mem_singleton]
    omega
  · show 1 ≤ (jsRound (clampScore (rawScore u n age) * 10) : ℚ) / 10
    have h10 : 10 ≤ jsRound (clampScore (rawScore u n age) * 10) :=
      Int.le_floor.2 (by push_cast; linarith)
    have : (10 : ℚ) ≤ (jsRound (clampScore (rawScore u n age) * 10) : ℚ) := by
      exact_mod_cast h10
    linarith
  · show (jsRound (clampScore (rawScore u n age) * 10) : ℚ) / 10 ≤ 5
    have h50 : jsRound (clampScore (rawScore u n age) * 10) < 51 :=
      Int.floor_lt.2 (by push_cast; linarith)
    have : (jsRound (clampScore (rawScore u n age) * 10) : ℚ) ≤ 50 := by
      exact_mod_cast Int.lt_add_one_iff.1 h50
    linarith

/-- Claim C9: holding urgency and age fixed, the returned priority is
monotonically non-decreasing in the upvote count. -/
theorem calculatePriority_mono_upvotes (u : String) (age : ℚ) {n m : ℕ}
    (h : n ≤ m) :
    (calculatePriority u n age).1 ≤ (calculatePriority u m age).1 := by
  show jsRound (clampScore (rawScore u n age)) ≤
    jsRound (clampScore (rawScore u m age))
  apply jsRound_mono
  apply clampScore_mono
  unfold rawScore
  have := communityBoost_mono h
  linarith

/-- Witness for C9 at the concrete input n = 3 ≤ m = 7. -/
theorem calculatePriority_mono_upvotes_witness :
    3 ≤ 7 ∧
      (calculatePriority "low" 3 0).1 ≤ (calculatePriority "low" 7 0).1 :=
  ⟨by norm_num, calculatePriority_mono_upvotes "low" 0 (by norm_num)⟩

/-- Claim C10: the advertised minimum priority 1 is unreachable — the
base urgency score is at least 1.5 and the boosts are non-negative, so
the half-up rounded priority is always at least 2. -/
theorem calculatePriority_ge_two (u : String) (n : ℕ) (age : ℚ) :
    2 ≤ (calculatePriority u n age).1 := by
  have hraw : 15/10 ≤ rawScore u n age := by
    unfold rawScore
    have h1 := urgencyScoreOf_ge u
    have h2 := communityBoost_nonneg n
    have h3 := timeBoost_nonneg age
    linarith
  have hclamp : 3/2 ≤ clampScore (rawScore u n age) := by
    unfold clampScore capAtFive
    split_ifs <;> linarith
  show 2 ≤ jsRound (clampScore (rawScore u n age))
  exact Int.le_floor.2 (by push_cast; linarith)

/-! ## Report documents and the UpvoteLedger
(src/src/models/report.model.js lines 19–252, 331–354;
src/src/controllers/report.controller.js lines 892–970) -/

/-- One entry of the `upvotes` array: `{ userId, upvotedAt }`.
ObjectIds are modelled as strings (the source compares them via
`toString()`), timestamps as rational milliseconds. -/
structure Vote where
  userId : String
  upvotedAt : ℚ
deriving DecidableEq

/-- One entry of the `updates` array (`updateSchema`). -/
structure UpdateEntry where
  date : ℚ
  message : String
  updatedBy : String
deriving DecidableEq

/-- The resolution image reference built in `updateReportStatus`. -/
structure ResolutionImage where
  url : String
  publicId : String
  uploadedAt : ℚ
  description : String
  uploadedBy : String
deriving DecidableEq

/-- The `resolutionEvidence` block of the report schema. -/
structure ResolutionEvidence where
  resolutionImage : Option ResolutionImage
  resolutionNotes : Option String
  workCompletedBy : Option String
  completionDate : Option ℚ
  materialsCost : Option ℚ
  laborHours : Option ℚ
deriving DecidableEq

/-- The slice of a persisted `Report` document that the mutation
operations under verification read or write. -/
structure Report where
  urgency : String
  status : String
  date : ℚ
  upvotes : List Vote
  upvoteCount : ℕ
  priority : ℤ
  priorityBreakdown : PriorityBreakdown
  department : Option String
  assignedTo : Option String
  resolvedDate : Option ℚ
  resolutionTime : Option ℚ
  resolutionEvidence : Option ResolutionEvidence
  updates : List UpdateEntry
  reportedBy : String
deriving DecidableEq

/-- `(Date.now() - reportDate.getTime()) / (1000 * 60 * 60 * 24)`. -/
def reportAgeDays (r : Report) (now : ℚ) : ℚ :=
  (now - r.date) / (1000 * 60 * 60 * 24)

/-- `ApiError(statusCode, message)` from the controllers. -/
structure ApiError where
  statusCode : ℕ
  message : String
deriving DecidableEq

instance {ε α : Type} [DecidableEq ε] [DecidableEq α] :
    DecidableEq (Except ε α) := fun
  | Except.error a, Except.error b =>
    if h : a = b then Decidable.isTrue (by rw [h])
    else Decidable.isFalse (fun hh => h (Except.error.inj hh))
  | Except.error _, Except.ok _ =>
    Decidable.isFalse (fun hh => Except.noConfusion hh)
  | Except.ok _, Except.error _ =>
    Decidable.isFalse (fun hh => Except.noConfusion hh)
  | Except.ok a, Except.ok b =>
    if h : a = b then Decidable.isTrue (by rw [h])
    else Decidable.isFalse (fun hh => h (Except.ok.inj hh))

/-- `reportSchema.methods.addUpvote` (report.model.js lines 331–344):
duplicate check, push, count refresh, synchronous priority recompute
(the pre-save hook then recomputes the same values on `save()`). -/
def addUpvote (r : Report) (userId : String) (now : ℚ) :
    Except String Report :=
  if (r.upvotes.find? (fun v => v.userId == userId)).isSome then
    Except.error "User has already upvoted this report"
  else
    let upvotes2 := r.upvotes ++ [Vote.mk userId now]
    Except.ok { r with
      upvotes := upvotes2,
      upvoteCount := upvotes2.length,
      priority :=
        (calculatePriority r.urgency upvotes2.length (reportAgeDays r now)).1,
      priorityBreakdown :=
        (calculatePriority r.urgency upvotes2.length (reportAgeDays r now)).2 }

/-- `reportSchema.methods.removeUpvote` (report.model.js lines 347–354):
filter by voter identity, count refresh, priority recompute; total — no
error path. -/
def removeUpvote (r : Report) (userId : String) (now : ℚ) : Report :=
  let upvotes2 := r.upvotes.filter (fun v => v.userId != userId)
  { r with
    upvotes := upvotes2,
    upvoteCount := upvotes2.length,
    priority :=
      (calculatePriority r.urgency upvotes2.length (reportAgeDays r now)).1,
    priorityBreakdown :=
      (calculatePriority r.urgency upvotes2.length (reportAgeDays r now)).2 }

/-- The controller `upvoteReport` (report.controller.js lines 892–936):
404 on a missing report, 400 on a resolved report, then `addUpvote`
with the duplicate-vote message mapped to 400 and anything else to 500.
`stored` is the result of the `findOne` lookup. -/
def upvoteReport (stored : Option Report) (userId : String) (now : ℚ) :
    Except ApiError Report :=
  match stored with
  | none => Except.error ⟨404, "Report not found"⟩
  | some report =>
    if report.status = "resolved" then
      Except.error ⟨400, "Cannot upvote resolved reports"⟩
    else
      match addUpvote report userId now with
      | Except.error msg =>
        if msg = "User has already upvoted this report" then
          Except.error ⟨400, msg⟩
        else
          Except.error ⟨500, "Error adding upvote"⟩
      | Except.ok r2 => Except.ok r2

/-! ### Upvote claims -/

/-- A resolved report that voter `"u1"` has already upvoted. -/
def resolvedVotedReport : Report :=
  { urgency := "medium", status := "resolved", date := 0,
    upvotes := [⟨"u1", 0⟩], upvoteCount := 1, priority := 3,
    priorityBreakdown := ⟨25/10, 2/10, 27/10⟩,
    department := none, assignedTo := none, resolvedDate := some 0,
    resolutionTime := none, resolutionEvidence := none, updates := [],
    reportedBy := "u0" }

/-- Counterexample to claim C4 as stated: when the report is resolved AND
the voter is already present, the operation fails with the
report-resolved error, not the already-voted error — the controller's
resolved check runs before the model's duplicate check. -/
theorem upvoteReport_resolved_wins_cex :
    resolvedVotedReport.status = "resolved" ∧
    (resolvedVotedReport.upvotes.find?
        (fun v => v.userId == "u1")).isSome = true ∧
    upvoteReport (some resolvedVotedReport) "u1" 0 =
      Except.error ⟨400, "Cannot upvote resolved reports"⟩ ∧
    upvoteReport (some resolvedVotedReport) "u1" 0 ≠
      Except.error ⟨400, "User has already upvoted this report"⟩ := by
  refine ⟨rfl, rfl, rfl, ?_⟩
  decide

/-- Claim C4 (amended): the resolved check takes precedence — a resolved
report always fails with the report-resolved error; on a non-resolved
report a present voter fails with the already-voted error and nothing is
appended; otherwise exactly one (voter, timestamp) entry is appended,
`upvoteCount` is set to the new size of the upvote set and the priority
is recomputed before the mutation is returned for commit. -/
theorem upvoteReport_cases (r : Report) (userId : String) (now : ℚ) :
    (r.status = "resolved" →
      upvoteReport (some r) userId now =
        Except.error ⟨400, "Cannot upvote resolved reports"⟩) ∧
    (r.status ≠ "resolved" → (∃ v ∈ r.upvotes, v.userId = userId) →
      upvoteReport (some r) userId now =
        Except.error ⟨400, "User has already upvoted this report"⟩) ∧
    (r.status ≠ "resolved" → (∀ v ∈ r.upvotes, v.userId ≠ userId) →
      upvoteReport (some r) userId now =
        Except.ok { r with
          upvotes := r.upvotes ++ [Vote.mk userId now],
          upvoteCount := (r.upvotes ++ [Vote.mk userId now]).length,
          priority := (calculatePriority r.urgency
            (r.upvotes ++ [Vote.mk userId now]).length (reportAgeDays r now)).1,
          priorityBreakdown := (calculatePriority r.urgency
            (r.upvotes ++ [Vote.mk userId now]).length (reportAgeDays r now)).2 }) := by
  refine ⟨?_, ?_, ?_⟩
  · intro h
    simp only [upvoteReport, if_pos h]
  · intro hns hmem
    have hfind : (r.upvotes.find? (fun v => v.userId == userId)).isSome = true := by
      rw [List.find?_isSome]
      obtain ⟨v, hv, he⟩ := hmem
      exact ⟨v, hv, by simp [he]⟩
    simp [upvoteReport, if_neg hns, addUpvote, hfind]
  · intro hns hnone
    have hfind : r.upvotes.find? (fun v => v.userId == userId) = none := by
      rw [List.find?_eq_none]
      intro v hv
      simp [hnone v hv]
    simp [upvoteReport, if_neg hns, addUpvote, hfind]

/-- A fresh unresolved report with no votes. -/
def freshReport : Report :=
  { urgency := "high", status := "pending_assignment", date := 0,
    upvotes := [], upvoteCount := 0, priority := 4,
    priorityBreakdown := ⟨4, 0, 42/10⟩, department := none,
    assignedTo := none, resolvedDate := none, resolutionTime := none,
    resolutionEvidence := none, updates := [], reportedBy := "u0" }

/-- Witness for C4: the success branch at voter `"u9"` on `freshReport`. -/
theorem upvoteReport_cases_witness :
    freshReport.status ≠ "resolved" ∧
    upvoteReport (some freshReport) "u9" 0 =
      Except.ok { freshReport with
        upvotes := freshReport.upvotes ++ [Vote.mk "u9" 0],
        upvoteCount := (freshReport.upvotes ++ [Vote.mk "u9" 0]).length,
        priority := (calculatePriority freshReport.urgency
          (freshReport.upvotes ++ [Vote.mk "u9" 0]).length
          (reportAgeDays freshReport 0)).1,
        priorityBreakdown := (calculatePriority freshReport.urgency
          (freshReport.upvotes ++ [Vote.mk "u9" 0]).length
          (reportAgeDays freshReport 0)).2 } :=
  ⟨by decide,
   (upvoteReport_cases freshReport "u9" 0).2.2 (by decide) (by decide)⟩

/-- Claim C5: `removeUpvote` is total (no error path), keeps
`upvoteCount` equal to the size of the upvote set (a natural number —
never negative), is idempotent on the count, leaves the set unchanged
when the voter is absent, and recomputes the priority from the new
count. -/
theorem removeUpvote_idempotent (r : Report) (userId : String)
    (now now2 : ℚ) :
    (removeUpvote r userId now).upvoteCount =
        (removeUpvote r userId now).upvotes.length ∧
    ((∀ v ∈ r.upvotes, v.userId ≠ userId) →
      (removeUpvote r userId now).upvotes = r.upvotes ∧
      (removeUpvote r userId now).upvoteCount = r.upvotes.length) ∧
    (removeUpvote (removeUpvote r userId now) userId now2).upvoteCount =
      (removeUpvote r userId now).upvoteCount ∧
    (removeUpvote r userId now).priority =
      (calculatePriority r.urgency (removeUpvote r userId now).upvoteCount
        (reportAgeDays r now)).1 := by
  refine ⟨rfl, ?_, ?_, rfl⟩
  · intro h
    have hf : r.upvotes.filter (fun v => v.userId != userId) = r.upvotes := by
      rw [List.filter_eq_self]
      intro v hv
      simp [h v hv]
    constructor
    · simp only [removeUpvote]
      exact hf
    · simp only [removeUpvote]
      rw [hf]
  · simp only [removeUpvote, List.filter_filter, Bool.and_self]

/-- Witness for C5 at `freshReport` and voter `"u9"`. -/
theorem removeUpvote_idempotent_witness :
    (removeUpvote freshReport "u9" 0).upvotes = freshReport.upvotes ∧
    (removeUpvote (removeUpvote freshReport "u9" 0) "u9" 0).upvoteCount =
      (removeUpvote freshReport "u9" 0).upvoteCount :=
  ⟨((removeUpvote_idempotent freshReport "u9" 0 0).2.1 (by decide)).1,
   (removeUpvote_idempotent freshReport "u9" 0 0).2.2.1⟩

/-! ## ReportLifecycle status updates — `updateReportStatus`
(src/src/controllers/report.controller.js lines 790–889) -/

/-- JS truthiness of an optional string (`undefined` and `""` are falsy). -/
def optStrTruthy : Option String → Bool
  | none => false
  | some s => s != ""

/-- JS truthiness of an optional number (`undefined` and `0` are falsy). -/
def optNumTruthy : Option ℚ → Bool
  | none => false
  | some q => q != 0

/-- `validStatuses` in `updateReportStatus` (line 805); the check is on
the *target* value only — the current status is never consulted. -/
def validStatuses : List String :=
  ["pending", "acknowledged", "in-progress", "resolved", "rejected",
   "pending_assignment"]

/-- The `if (status === 'resolved')` block: stamp `resolvedDate`, the
`resolutionTime` in hours, and overwrite the evidence block when any
evidence input is truthy. -/
def applyResolution (r : Report) (userId : String)
    (resolutionNotes : Option String) (materialsCost laborHours : Option ℚ)
    (resolutionImage : Option ResolutionImage) (now : ℚ) : Report :=
  { r with
    resolvedDate := some now,
    resolutionTime := some ((now - r.date) / (1000 * 60 * 60)),
    resolutionEvidence :=
      if resolutionImage.isSome || optStrTruthy resolutionNotes ||
          optNumTruthy materialsCost || optNumTruthy laborHours then
        some (ResolutionEvidence.mk resolutionImage resolutionNotes
          (some userId) (some now) materialsCost laborHours)
      else r.resolutionEvidence }

/-- `updateReportStatus` after the `findOne` lookup and the optional
evidence-image upload: permission check, target-status validation
against `validStatuses`, status assignment with resolution side
effects, optional update message, staff auto-assignment, save. -/
def updateReportStatus (stored : Option Report) (userRole : String)
    (userDept : Option String) (userId : String) (status : Option String)
    (message : Option String) (resolutionNotes : Option String)
    (materialsCost laborHours : Option ℚ)
    (resolutionImage : Option ResolutionImage) (now : ℚ) :
    Except ApiError Report :=
  match stored with
  | none => Except.error ⟨404, "Report not found"⟩
  | some report =>
    if userRole = "staff" ∧ report.department ≠ userDept then
      Except.error ⟨403, "You can only update reports from your department"⟩
    else if optStrTruthy status ∧ status.getD "" ∉ validStatuses then
      Except.error ⟨400, "Invalid status provided"⟩
    else
      let r1 :=
        if optStrTruthy status then
          let rs := { report with status := status.getD "" }
          if status.getD "" = "resolved" then
            applyResolution rs userId resolutionNotes materialsCost
              laborHours resolutionImage now
          else rs
        else report
      let r2 :=
        if optStrTruthy message then
          { r1 with updates :=
              r1.updates ++ [UpdateEntry.mk now (message.getD "") userId] }
        else r1
      let r3 :=
        if r2.assignedTo = none ∧ userRole = "staff" then
          { r2 with assignedTo := some userId }
        else r2
      Except.ok r3

/-- A report already in the terminal `resolved` status. -/
def terminalReport : Report :=
  { urgency := "medium", status := "resolved", date := 0,
    upvotes := [], upvoteCount := 0, priority := 3,
    priorityBreakdown := ⟨25/10, 0, 27/10⟩, department := none,
    assignedTo := none, resolvedDate := some 0, resolutionTime := some 0,
    resolutionEvidence := none, updates := [], reportedBy := "u0" }

/-- Counterexample to claim C2: a status change out of `resolved` to the
valid target `"pending"` succeeds and overwrites the stored status —
there is no terminal-state guard in `updateReportStatus`. -/
theorem updateReportStatus_terminal_cex :
    terminalReport.status = "resolved" ∧
    updateReportStatus (some terminalReport) "admin" none "a1"
        (some "pending") none none none none none 0 =
      Except.ok { terminalReport with status := "pending" } ∧
    ("pending" : String) ≠ "resolved" := by
  refine ⟨rfl, ?_, by decide⟩
  rfl

/-- Claim C2 (amended): out of `resolved` or `rejected`, a status-change
call by a permitted actor with any target in `validStatuses` succeeds
and sets the stored status to the target; the operation fails with the
400 Invalid-status error only when the (non-empty) target is outside
`validStatuses`, in which case no updated report is produced. -/
theorem updateReportStatus_no_terminal_guard (r : Report) (userRole : String)
    (userDept : Option String) (userId : String) (s : String)
    (message resolutionNotes : Option String)
    (materialsCost laborHours : Option ℚ)
    (resolutionImage : Option ResolutionImage) (now : ℚ)
    (h_term : r.status = "resolved" ∨ r.status = "rejected")
    (hperm : ¬ (userRole = "staff" ∧ r.department ≠ userDept)) :
    (s ∈ validStatuses →
      (updateReportStatus (some r) userRole userDept userId (some s) message
          resolutionNotes materialsCost laborHours resolutionImage
          now).toOption.map Report.status = some s) ∧
    (s ∉ validStatuses → s ≠ "" →
      updateReportStatus (some r) userRole userDept userId (some s) message
          resolutionNotes materialsCost laborHours resolutionImage now =
        Except.error ⟨400, "Invalid status provided"⟩) := by
  constructor
  · intro hs
    have hne : s ≠ "" := by
      intro h
      subst h
      exact absurd hs (by decide)
    have hst : optStrTruthy (some s) = true := by
      simpa [optStrTruthy] using hne
    simp only [updateReportStatus]
    rw [if_neg hperm]
    rw [if_neg (by simp [hst, hs] : ¬ (optStrTruthy (some s) = true ∧
      (some s).getD "" ∉ validStatuses))]
    simp only [hst, if_true, Option.getD]
    split_ifs <;>
      simp [applyResolution, Except.toOption, Option.map]
  · intro hs hne
    have hst : optStrTruthy (some s) = true := by
      simpa [optStrTruthy] using hne
    simp only [updateReportStatus]
    rw [if_neg hperm]
    rw [if_pos (by simp [hst, hs] : optStrTruthy (some s) = true ∧
      (some s).getD "" ∉ validStatuses)]

/-- Witness for C2 (amended) at `terminalReport`, target `"acknowledged"`. -/
theorem updateReportStatus_no_terminal_guard_witness :
    (updateReportStatus (some terminalReport) "admin" none "a1"
        (some "acknowledged") none none none none none 0).toOption.map
      Report.status = some "acknowledged" :=
  (updateReportStatus_no_terminal_guard terminalReport "admin" none "a1"
      "acknowledged" none none none none none 0
      (Or.inl rfl) (by decide)).1 (by decide)

/-! ## JurisdictionResolver — municipality selection in `createReport`
(src/src/controllers/report.controller.js lines 52–79, 129–152,
431–457) -/

/-- The municipality fields the resolver reads
(src/src/models/municipality.model.js): document id, name, district.
The geographic point enters through the distance function below. -/
structure Municipality where
  id : String
  name : String
  district : String
deriving DecidableEq

/-- `findNearestMunicipality` (lines 52–79).  The `$near` geospatial
query of the external store is modelled by its documented contract
(spec §6: nearest municipality to the point within radius R): among the
municipalities whose distance is within `$maxDistance` 20000 meters,
the one at minimal distance.  `dist` gives each municipality's distance
to the report's point in meters. -/
def findNearestMunicipality (munis : List Municipality)
    (dist : Municipality → ℚ) : Option Municipality :=
  (munis.filter (fun m => decide (dist m ≤ 20000))).argmin dist

/-- ASCII lower-casing of one character code, as the `i` regex flag
folds case. -/
def charLower (c : Char) : ℕ :=
  if 65 ≤ c.toNat ∧ c.toNat ≤ 90 then c.toNat + 32 else c.toNat

/-- The lower-cased character codes of a string. -/
def strLowerCodes (s : String) : List ℕ := s.toList.map charLower

/-- The case-insensitive regex test `new RegExp(d, 'i').test(district)`
for a plain district name: `d` occurs in `district` ignoring case. -/
def districtMatches (d : String) (m : Municipality) : Bool :=
  decide (strLowerCodes d <:+: strLowerCodes m.district)

/-- `findMunicipalityByDistrict` (lines 129–152): `findOne` with the
case-insensitive regex `new RegExp(districtName, 'i')` against the
stored `district` field — the first municipality whose district
contains the searched name case-insensitively; falsy district names
return null. -/
def findMunicipalityByDistrict (munis : List Municipality)
    (districtName : Option String) : Option Municipality :=
  match districtName with
  | none => none
  | some d =>
    if d = "" then none
    else munis.find? (districtMatches d)

/-- The `selectionMethod` tag set by report creation: `"nearest"` or
`"district-based"` (the spec calls the latter `district`). -/
inductive SelectionMethod where
  | nearest
  | districtBased
deriving DecidableEq

/-- The municipality-selection chain inside `createReport` (lines
431–457): nearest-geometry search first; only when it finds nothing,
reverse geocoding (whose outcome — district name, or null on
miss/error/missing key — is the `geocodedDistrict` parameter) followed
by the district lookup. -/
def resolveMunicipality (munis : List Municipality)
    (dist : Municipality → ℚ) (geocodedDistrict : Option String) :
    Option (Municipality × SelectionMethod) :=
  match findNearestMunicipality munis dist with
  | some m => some (m, SelectionMethod.nearest)
  | none =>
    (findMunicipalityByDistrict munis geocodedDistrict).map
      (fun m => (m, SelectionMethod.districtBased))

/-- Claim C6: strict three-stage fallback order.  When the nearest stage
finds a municipality it is one within 20000 meters minimising the
distance and is returned tagged `nearest`; exactly when that stage
finds nothing, the reverse-geocoded district name is matched
case-insensitively against stored districts and a hit is returned
tagged `district-based`, never `nearest`. -/
theorem resolveMunicipality_fallback_order (munis : List Municipality)
    (dist : Municipality → ℚ) (geo : Option String) :
    (∀ m, findNearestMunicipality munis dist = some m →
      resolveMunicipality munis dist geo =
          some (m, SelectionMethod.nearest) ∧
        m ∈ munis ∧ dist m ≤ 20000 ∧
        ∀ m2 ∈ munis, dist m2 ≤ 20000 → dist m ≤ dist m2) ∧
    (findNearestMunicipality munis dist = none →
      ∀ m, findMunicipalityByDistrict munis geo = some m →
        resolveMunicipality munis dist geo =
            some (m, SelectionMethod.districtBased) ∧
          SelectionMethod.districtBased ≠ SelectionMethod.nearest ∧
          m ∈ munis ∧
          ∀ d, geo = some d →
            strLowerCodes d <:+: strLowerCodes m.district) := by
  constructor
  · intro m hm
    have hargmin : m ∈ (munis.filter (fun x => decide (dist x ≤ 20000))).argmin dist := by
      rw [Option.mem_def]
      exact hm
    have hfil : m ∈ munis.filter (fun x => decide (dist x ≤ 20000)) :=
      List.argmin_mem hargmin
    rw [List.mem_filter] at hfil
    refine ⟨by simp [resolveMunicipality, hm], hfil.1,
      of_decide_eq_true hfil.2, ?_⟩
    intro m2 hm2 hd2
    have hm2f : m2 ∈ munis.filter (fun x => decide (dist x ≤ 20000)) :=
      List.mem_filter.mpr ⟨hm2, decide_eq_true hd2⟩
    exact List.le_of_mem_argmin hm2f hargmin
  · intro hnone m hm
    refine ⟨by simp [resolveMunicipality, hnone, hm], by decide, ?_, ?_⟩
    · match hgeo : geo with
      | none => exact absurd hm (by simp [findMunicipalityByDistrict])
      | some d =>
        simp only [findMunicipalityByDistrict] at hm
        by_cases hd : d = ""
        · rw [if_pos hd] at hm
          exact absurd hm (by simp)
        · rw [if_neg hd] at hm
          exact List.mem_of_find?_eq_some hm
    · intro d hd
      subst hd
      simp only [findMunicipalityByDistrict] at hm
      by_cases he : d = ""
      · rw [if_pos he] at hm
        exact absurd hm (by simp)
      · rw [if_neg he] at hm
        have hp := List.find?_some hm
        unfold districtMatches at hp
        exact of_decide_eq_true hp

/-- Witness for C6: a single municipality 30 km away (nearest stage
fails) whose district `"DistA"` matches the geocoded `"dista"`. -/
theorem resolveMunicipality_fallback_order_witness :
    resolveMunicipality [Municipality.mk "m1" "M1" "DistA"]
        (fun _ => 30000) (some "dista") =
      some (Municipality.mk "m1" "M1" "DistA",
        SelectionMethod.districtBased) :=
  (((resolveMunicipality_fallback_order [Municipality.mk "m1" "M1" "DistA"]
      (fun _ => 30000) (some "dista")).2 (by decide)
      (Municipality.mk "m1" "M1" "DistA") (by decide))).1

/-! ## AssignmentRouter and report creation — `createReport`
(src/src/controllers/report.controller.js lines 296–575) -/

/-- The department fields auto-routing reads
(src/src/models/department.model.js): document id, owning municipality
and handled categories. -/
structure Department where
  id : String
  name : String
  municipality : String
  categories : List String
deriving DecidableEq

/-- `Department.findOne({ municipality, categories: { $in: [category] } })`
(lines 491–494): first department of the resolved municipality that
lists the category. -/
def findDepartmentFor (depts : List Department) (muniId : String)
    (category : String) : Option Department :=
  depts.find? (fun dep =>
    dep.municipality == muniId && dep.categories.contains category)

/-- The auto-assignment block (lines 488–510): resulting department,
`assignmentType` and `status` for the new report.  For category
`"Other"` the department lookup is skipped entirely. -/
def routeDepartment (depts : List Department) (muniId : String)
    (category : String) : Option Department × String × String :=
  if category ≠ "Other" then
    match findDepartmentFor depts muniId category with
    | some dep => (some dep, "automatic", "assigned")
    | none => (none, "pending", "pending_assignment")
  else (none, "pending", "pending_assignment")

/-- The result of JavaScript `parseFloat` on a coordinate entry: `NaN`,
an infinity, or a finite number. -/
inductive JsNum where
  | nan
  | posInf
  | negInf
  | num (q : ℚ)
deriving DecidableEq

/-- `isNaN(x)` — true only for `NaN`; infinities pass. -/
def JsNum.isNaN : JsNum → Bool
  | JsNum.nan => true
  | _ => false

/-- The `location.coordinates` request field as the controller sees it:
absent, a string `JSON.parse` rejects, a parsed or direct non-array
value, or an array whose entries are given after `parseFloat`. -/
inductive CoordsInput where
  | missing
  | badString
  | nonArrayValue
  | arrayValue (elems : List JsNum)
deriving DecidableEq

/-- The coordinate validation of `createReport` (lines 327–358): the
only checks are presence, parseability, the array-of-length-2 shape and
`isNaN` of the two `parseFloat` results.  No range or finiteness check
exists in the source. -/
def validateCoordinates : CoordsInput → Except ApiError (JsNum × JsNum)
  | CoordsInput.missing =>
    Except.error ⟨400, "Location coordinates are required"⟩
  | CoordsInput.badString =>
    Except.error ⟨400, "Invalid coordinates format"⟩
  | CoordsInput.nonArrayValue =>
    Except.error
      ⟨400, "Coordinates must be an array with [longitude, latitude]"⟩
  | CoordsInput.arrayValue es =>
    if h : es.length = 2 then
      if (es.get ⟨0, by omega⟩).isNaN || (es.get ⟨1, by omega⟩).isNaN then
        Except.error ⟨400, "Coordinates must be valid numbers"⟩
      else Except.ok (es.get ⟨0, by omega⟩, es.get ⟨1, by omega⟩)
    else
      Except.error
        ⟨400, "Coordinates must be an array with [longitude, latitude]"⟩

/-- The body of a create request, plus whether a voice file was
attached. -/
structure CreateRequest where
  title : Option String
  category : Option String
  urgency : Option String
  description : Option String
  hasVoiceMessage : Bool
  coords : CoordsInput
deriving DecidableEq

/-- `description && description.trim()`: a description that is
non-empty after trimming, i.e. contains a non-whitespace character. -/
def hasDescription (req : CreateRequest) : Bool :=
  match req.description with
  | none => false
  | some d => d.toList.any (fun c => !c.isWhitespace)

/-- The fields of the document assembled by `createReport` (lines
459–513) that the claims read, after the pre-save hook computed the
priority (upvoteCount 0, age 0 at creation; the stored description is
the trimmed text — trimming itself is immaterial here and the raw
string is kept). -/
structure CreatedReport where
  title : String
  category : String
  urgency : String
  description : Option String
  longitude : JsNum
  latitude : JsNum
  municipality : String
  department : Option String
  assignmentType : String
  status : String
  upvoteCount : ℕ
  priority : ℤ
deriving DecidableEq

/-- `createReport` restricted to its decision logic: required-field
validation, content validation, coordinate validation, jurisdiction
resolution, category routing and document assembly.  Media upload and
cleanup are independent of every claim and omitted. -/
def createReport (req : CreateRequest) (munis : List Municipality)
    (dist : Municipality → ℚ) (geocodedDistrict : Option String)
    (depts : List Department) : Except ApiError CreatedReport :=
  if ¬ (optStrTruthy req.title ∧ optStrTruthy req.category) then
    Except.error ⟨400, "Title and category are required"⟩
  else if ¬ (hasDescription req ∨ req.hasVoiceMessage) then
    Except.error ⟨400, "Either description or voice message is required"⟩
  else
    match validateCoordinates req.coords with
    | Except.error e => Except.error e
    | Except.ok (lon, lat) =>
      match resolveMunicipality munis dist geocodedDistrict with
      | none =>
        Except.error
          ⟨404, "No municipality found for this location. Please contact support."⟩
      | some (muni, _) =>
        let category := req.category.getD ""
        let urgency :=
          if optStrTruthy req.urgency then req.urgency.getD "" else "medium"
        let route := routeDepartment depts muni.id category
        Except.ok
          { title := req.title.getD "",
            category := category,
            urgency := urgency,
            description :=
              if hasDescription req then req.description else none,
            longitude := lon,
            latitude := lat,
            municipality := muni.id,
            department := route.1.map Department.id,
            assignmentType := route.2.1,
            status := route.2.2,
            upvoteCount := 0,
            priority := (calculatePriority urgency 0 0).1 }

/-- The status field of a creation result, when a report was created. -/
def createdStatusOf : Except ApiError CreatedReport → Option String
  | Except.ok r => some r.status
  | Except.error _ => none

/-- The department field of a creation result, when a report was
created. -/
def createdDepartmentOf :
    Except ApiError CreatedReport → Option (Option String)
  | Except.ok r => some r.department
  | Except.error _ => none

/-- The assignment-type field of a creation result, when a report was
created. -/
def createdAssignmentTypeOf : Except ApiError CreatedReport → Option String
  | Except.ok r => some r.assignmentType
  | Except.error _ => none

/-- Whether a creation result is a 400 Bad-Request rejection. -/
def isBadRequest : Except ApiError CreatedReport → Bool
  | Except.error e => e.statusCode == 400
  | Except.ok _ => false

/-- Claim C7: for every create request with category Other, regardless
of the departments that exist (the lookup is skipped entirely — the
result does not depend on the department collection at all), a created
report has status pending_assignment, a null department and
assignment-type pending. -/
theorem createReport_other_pending (req : CreateRequest)
    (munis : List Municipality) (dist : Municipality → ℚ)
    (geo : Option String) (depts depts2 : List Department)
    (hcat : req.category = some "Other") :
    createReport req munis dist geo depts =
      createReport req munis dist geo depts2 ∧
    (createdStatusOf (createReport req munis dist geo depts) = none ∨
      (createdStatusOf (createReport req munis dist geo depts) =
          some "pending_assignment" ∧
        createdDepartmentOf (createReport req munis dist geo depts) =
          some none ∧
        createdAssignmentTypeOf (createReport req munis dist geo depts) =
          some "pending")) := by
  have hroute : ∀ ds mid, routeDepartment ds mid "Other" =
      (none, "pending", "pending_assignment") := by
    intro ds mid
    unfold routeDepartment
    simp
  unfold createReport
  rw [hcat]
  rcases hv : validateCoordinates req.coords with e | c
  · by_cases h1 : ¬ (optStrTruthy req.title = true ∧
        optStrTruthy (some "Other") = true)
    · simp only [if_pos h1]
      exact ⟨by trivial, Or.inl rfl⟩
    · simp only [if_neg h1]
      by_cases hd : ¬ (hasDescription req = true ∨
          req.hasVoiceMessage = true)
      · simp only [if_pos hd]
        exact ⟨by trivial, Or.inl rfl⟩
      · simp only [if_neg hd]
        exact ⟨by trivial, Or.inl rfl⟩
  · obtain ⟨lon, lat⟩ := c
    rcases hr : resolveMunicipality munis dist geo with _ | p
    · by_cases h1 : ¬ (optStrTruthy req.title = true ∧
          optStrTruthy (some "Other") = true)
      · simp only [if_pos h1]
        exact ⟨by trivial, Or.inl rfl⟩
      · simp only [if_neg h1]
        by_cases hd : ¬ (hasDescription req = true ∨
            req.hasVoiceMessage = true)
        · simp only [if_pos hd]
          exact ⟨by trivial, Or.inl rfl⟩
        · simp only [if_neg hd]
          exact ⟨by trivial, Or.inl rfl⟩
    · obtain ⟨muni, meth⟩ := p
      by_cases h1 : ¬ (optStrTruthy req.title = true ∧
          optStrTruthy (some "Other") = true)
      · simp only [if_pos h1]
        exact ⟨by trivial, Or.inl rfl⟩
      · simp only [if_neg h1]
        by_cases hd : ¬ (hasDescription req = true ∨
            req.hasVoiceMessage = true)
        · simp only [if_pos hd]
          exact ⟨by trivial, Or.inl rfl⟩
        · simp only [if_neg hd]
          simp only [Option.getD_some, hroute]
          exact ⟨by trivial, Or.inr ⟨rfl, rfl, rfl⟩⟩

/-- The municipality used in concrete creation scenarios. -/
def cityOne : Municipality := Municipality.mk "m1" "M1" "DistA"

/-- A valid creation request for category `"Other"`. -/
def otherRequest : CreateRequest :=
  { title := some "Misc issue", category := some "Other",
    urgency := none, description := some "something odd",
    hasVoiceMessage := false,
    coords := CoordsInput.arrayValue [JsNum.num 85, JsNum.num 23] }

/-- A department of `cityOne` that handles Sanitation. -/
def deptOne : Department :=
  Department.mk "d1" "Sanitation Dept" "m1" ["Sanitation"]

/-- Witness for C7 at a concrete request, with and without a department
present in the municipality. -/
theorem createReport_other_pending_witness :
    createReport otherRequest [cityOne] (fun _ => 0) none [deptOne] =
      createReport otherRequest [cityOne] (fun _ => 0) none [] ∧
    (createdStatusOf
        (createReport otherRequest [cityOne] (fun _ => 0) none [deptOne]) =
        none ∨
      (createdStatusOf
          (createReport otherRequest [cityOne] (fun _ => 0) none [deptOne]) =
          some "pending_assignment" ∧
        createdDepartmentOf
          (createReport otherRequest [cityOne] (fun _ => 0) none [deptOne]) =
          some none ∧
        createdAssignmentTypeOf
          (createReport otherRequest [cityOne] (fun _ => 0) none [deptOne]) =
          some "pending")) :=
  createReport_other_pending otherRequest [cityOne] (fun _ => 0) none
    [deptOne] [] rfl

/-- A create request whose longitude 200 is outside [-180, 180]. -/
def outOfRangeRequest : CreateRequest :=
  { title := some "Pothole", category := some "Infrastructure",
    urgency := none, description := some "Broken road",
    hasVoiceMessage := false,
    coords := CoordsInput.arrayValue [JsNum.num 200, JsNum.num 0] }

/-- Counterexample to claim C8: a coordinate pair with longitude 200 —
outside [-180, 180] — passes the validation and a report document is
created; the source checks only `isNaN`. -/
theorem createReport_out_of_range_cex :
    ¬ ((-180 : ℚ) ≤ 200 ∧ (200 : ℚ) ≤ 180) ∧
    validateCoordinates outOfRangeRequest.coords =
      Except.ok (JsNum.num 200, JsNum.num 0) ∧
    createdStatusOf
        (createReport outOfRangeRequest [cityOne] (fun _ => 0) none []) =
      some "pending_assignment" := by
  refine ⟨by norm_num, rfl, ?_⟩
  rfl

/-- Claim C8 (amended): report creation rejects with a 400 Bad-Request
error — and creates no report document — every request whose
coordinates are missing, unparseable, not an array of exactly two
entries, or contain an entry that parses to NaN; the two entries are
checked for nothing else, so any two parsed numbers (out-of-range or
infinite included) are accepted. -/
theorem createReport_rejects_malformed_coords (req : CreateRequest)
    (munis : List Municipality) (dist : Municipality → ℚ)
    (geo : Option String) (depts : List Department) (e : ApiError)
    (he : validateCoordinates req.coords = Except.error e) :
    e.statusCode = 400 ∧
    isBadRequest (createReport req munis dist geo depts) = true ∧
    (∀ r, createReport req munis dist geo depts ≠ Except.ok r) ∧
    (∀ a b : ℚ,
      validateCoordinates
          (CoordsInput.arrayValue [JsNum.num a, JsNum.num b]) =
        Except.ok (JsNum.num a, JsNum.num b)) := by
  have h400 : e.statusCode = 400 := by
    rcases hc : req.coords with _ | _ | _ | es
    · rw [hc] at he
      rw [← Except.error.inj he]
    · rw [hc] at he
      rw [← Except.error.inj he]
    · rw [hc] at he
      rw [← Except.error.inj he]
    · rw [hc] at he
      simp only [validateCoordinates] at he
      by_cases h2 : es.length = 2
      · rw [dif_pos h2] at he
        split_ifs at he
        rw [← Except.error.inj he]
      · rw [dif_neg h2] at he
        rw [← Except.error.inj he]
  refine ⟨h400, ?_, ?_, ?_⟩
  · unfold createReport
    rw [he]
    by_cases h1 : ¬ (optStrTruthy req.title = true ∧
        optStrTruthy req.category = true)
    · rw [if_pos h1]
      rfl
    · rw [if_neg h1]
      by_cases hd : ¬ (hasDescription req = true ∨
          req.hasVoiceMessage = true)
      · rw [if_pos hd]
        rfl
      · rw [if_neg hd]
        simp [isBadRequest, h400]
  · intro r
    unfold createReport
    rw [he]
    by_cases h1 : ¬ (optStrTruthy req.title = true ∧
        optStrTruthy req.category = true)
    · rw [if_pos h1]
      simp
    · rw [if_neg h1]
      by_cases hd : ¬ (hasDescription req = true ∨
          req.hasVoiceMessage = true)
      · rw [if_pos hd]
        simp
      · rw [if_neg hd]
        simp
  · intro a b
    rfl

/-- A create request with no coordinates at all. -/
def missingCoordsRequest : CreateRequest :=
  { title := some "T", category := some "Sanitation", urgency := none,
    description := some "d", hasVoiceMessage := false,
    coords := CoordsInput.missing }

/-- Witness for C8 (amended) at a request with missing coordinates. -/
theorem createReport_rejects_malformed_coords_witness :
    isBadRequest
      (createReport missingCoordsRequest [] (fun _ => 0) none []) = true :=
  (createReport_rejects_malformed_coords missingCoordsRequest []
      (fun _ => 0) none []
      ⟨400, "Location coordinates are required"⟩ rfl).2.1
